import Mathlib

/-!
Verification of the plant-disease-detection web service
(`classify_detect13.py`) against its natural-language specification.

The Python source is shallowly embedded: each helper becomes a pure Lean
function over `String`/`List Char`, and the `/analyze` route becomes a
pure function of an explicit request record plus the outcomes of its
effectful collaborators (file save, the external Gemini call, the OpenCV
annotation attempt), which the route only observes through their results.
-/

namespace PlantApp

/-! ## Python string primitives

Models of the Python `str` operations the source uses: `strip`, `lower`,
`in` (substring test), `split(":", 1)`, `splitlines()[0]`, and the
truthiness used by `x or "unknown"`. -/

/-- Whitespace characters removed by Python `str.strip()` (ASCII range:
space, tab, newline, carriage return, vertical tab, form feed). -/
def isPySpace (c : Char) : Bool :=
  c = ' ' || c = '\t' || c = '\n' || c = '\r' ||
  c = Char.ofNat 11 || c = Char.ofNat 12

/-- Line-boundary characters relevant to `str.splitlines()` for the first
line of an already-stripped string (newline, carriage return, vertical
tab, form feed). -/
def isLineBreak (c : Char) : Bool :=
  c = '\n' || c = '\r' || c = Char.ofNat 11 || c = Char.ofNat 12

/-- Python `str.strip()` on the character list: drop leading and trailing
whitespace. -/
def pyStripList (l : List Char) : List Char :=
  ((l.dropWhile isPySpace).reverse.dropWhile isPySpace).reverse

/-- Python `str.strip()`. -/
def pyStrip (s : String) : String :=
  ⟨pyStripList s.data⟩

/-- Python `str.lower()` (ASCII case folding, which covers every
character the source compares). -/
def pyLower (s : String) : String :=
  ⟨s.data.map Char.toLower⟩

/-- Does `needle` occur at the start of `hay`? -/
def listStartsWith : List Char → List Char → Bool
  | _, [] => true
  | [], _ :: _ => false
  | a :: as, b :: bs => a = b && listStartsWith as bs

/-- Python `needle in hay` substring test on character lists. -/
def listContainsSub : List Char → List Char → Bool
  | hay, needle =>
    match hay with
    | [] => needle.isEmpty
    | _ :: t => listStartsWith hay needle || listContainsSub t needle

/-- Python `needle in hay` substring test on strings. -/
def containsSub (hay needle : String) : Bool :=
  listContainsSub hay.data needle.data

/-- Python `s.split(":", 1)`: locate the first colon, returning the
characters before it and the characters after it, or `none` when the
string has no colon (the source guards with `":" in s` first). -/
def splitFirstColon : List Char → Option (List Char × List Char)
  | [] => none
  | c :: t =>
    if c = ':' then some ([], t)
    else (splitFirstColon t).map (fun p => (c :: p.1, p.2))

/-- Python `s.splitlines()[0]` of a stripped string: the characters up to
the first line boundary. -/
def pyFirstLine (s : String) : String :=
  ⟨s.data.takeWhile (fun c => !isLineBreak c)⟩

/-- Python `s or default` for strings: the empty string is falsy. -/
def pyOr (s default : String) : String :=
  if s = "" then default else s

/-! ## Classifier client (`classify_with_gemini`)

The external call is modelled by its observable outcome: either some
exception was raised inside the `try` block (image open, network call,
or the `splitlines()[0]` indexing), or `response.text` came back as a
string. The module-level `gemini_ready` flag is passed explicitly. -/

/-- Outcome of the effectful part of the Gemini call: an exception
anywhere inside the `try` block, or the raw `response.text`. -/
inductive GeminiOutcome where
  | exc : GeminiOutcome
  | ok : String → GeminiOutcome
deriving DecidableEq, Repr

/-- Embedding of `classify_with_gemini`. If the classifier is not
configured the literal `"unknown"` is returned at once. Otherwise an
exception yields `"unknown"` (caught), and a returned text is stripped
and its first line taken; `splitlines()[0]` on an empty stripped text
raises `IndexError`, which the same handler converts to `"unknown"`. -/
def classify_with_gemini (gemini_ready : Bool) (out : GeminiOutcome) : String :=
  if gemini_ready then
    match out with
    | .exc => "unknown"
    | .ok text =>
      if pyStrip text = "" then "unknown"
      else pyFirstLine (pyStrip text)
  else "unknown"

/-! ## Result interpreter (`get_disease_info`) -/

/-- The structured record built by `get_disease_info`. -/
structure DiseaseInfo where
  plant_type : String
  disease_name : String
  severity_level : String
  confidence : String
deriving DecidableEq, Repr

/-- Embedding of `get_disease_info`: split on the first colon, trim both
sides, bucket severity by keyword priority, and set confidence from the
`gemini_ready` flag; with no colon, return the fixed fallback record. -/
def get_disease_info (gemini_ready : Bool) (disease_classification : String) :
    DiseaseInfo :=
  match splitFirstColon disease_classification.data with
  | some (p, d) =>
    let plant := pyStrip ⟨p⟩
    let disease := pyStrip ⟨d⟩
    let severity :=
      if pyLower disease = "healthy" then "Healthy"
      else if ["blight", "rot", "wilt", "canker"].any
          (fun word => containsSub (pyLower disease) word) then "High"
      else if ["spot", "rust", "mildew"].any
          (fun word => containsSub (pyLower disease) word) then "Medium"
      else "Low to Medium"
    { plant_type := plant
      disease_name := disease
      severity_level := severity
      confidence := if gemini_ready then "High" else "Low" }
  | none =>
    { plant_type := "Unknown"
      disease_name := disease_classification
      severity_level := "Unknown"
      confidence := "Low" }

/-! ## Recommendation generator (`get_recommendations`)

The five static advice lists, byte-for-byte the string literals of the
source file (its emoji bytes decode to the code points escaped below). -/

def healthyRecs : List String :=
  ["\uF8FF\u00FC\u00E5\u00F8 Great! Your plant appears to be healthy.",
   "\uF8FF\u00FC\u00ED\u00DF Continue regular watering and maintenance schedule.",
   "\u201A\u00F2\u00C4\u00D4\u220F\u00E8 Ensure adequate sunlight and proper ventilation.",
   "\uF8FF\u00FC\u00EE\u00E7 Monitor regularly for any changes in appearance."]

def blightRecs : List String :=
  ["\uF8FF\u00FC\u00F6\u00AE Immediate action required - this is a serious fungal disease.",
   "\u201A\u00FA\u00C7\u00D4\u220F\u00E8 Remove and destroy affected plant parts immediately.",
   "\uF8FF\u00FC\u00ED\u00E4 Apply appropriate fungicide treatment.",
   "\uF8FF\u00FC\u00E5\u00A8\u00D4\u220F\u00E8 Improve air circulation around the plant.",
   "\uF8FF\u00FC\u00ED\u00DF Avoid overhead watering to reduce humidity."]

def spotRustRecs : List String :=
  ["\uF8FF\u00FC\u00EE\u00E7 Monitor the affected areas closely.",
   "\u201A\u00FA\u00C7\u00D4\u220F\u00E8 Remove affected leaves to prevent spread.",
   "\uF8FF\u00FC\u00ED\u00E4 Consider applying fungicide if spreading continues.",
   "\uF8FF\u00FC\u00ED\u00DF Water at soil level to avoid wet leaves.",
   "\uF8FF\u00FC\u00E5\u00B1 Ensure proper plant spacing for air circulation."]

def wiltRecs : List String :=
  ["\uF8FF\u00FC\u00ED\u00DF Check soil moisture - may indicate watering issues.",
   "\uF8FF\u00FC\u00E5\u00B0\u00D4\u220F\u00E8 Ensure proper temperature conditions.",
   "\uF8FF\u00FC\u00B6\u2020 May require bacterial or fungal treatment.",
   "\u201A\u00FA\u00C7\u00D4\u220F\u00E8 Remove severely affected parts.",
   "\uF8FF\u00FC\u00E8\u2022 Quarantine from other plants if infectious."]

def fallbackRecs : List String :=
  ["\uF8FF\u00FC\u00EE\u00E7 Continue monitoring the plant\u0027s condition.",
   "\uF8FF\u00FC\u00EC\u00F6 Research specific treatment for this condition.",
   "\uF8FF\u00FC\u00E5\u00B1 Maintain good plant hygiene practices.",
   "\uF8FF\u00FC\u00ED\u00DF Ensure proper watering schedule.",
   "\uF8FF\u00FC\u00E5\u00FB Check if plant is getting adequate light.",
   "\uF8FF\u00FC\u00E8\u2022 Consult with local agricultural extension service if symptoms persist."]

/-- Embedding of `get_recommendations`. The source also lowercases
`plant_type` and `severity_level` into local variables, but only the
lowercased `disease_name` is ever consulted. -/
def get_recommendations (disease_info : DiseaseInfo) : List String :=
  let disease_name := pyLower disease_info.disease_name
  if disease_name = "healthy" then healthyRecs
  else if containsSub disease_name "blight" then blightRecs
  else if containsSub disease_name "spot" || containsSub disease_name "rust" then
    spotRustRecs
  else if containsSub disease_name "wilt" then wiltRecs
  else fallbackRecs

/-! ## HTTP surface: the `/analyze` route

The request is modelled by the fields the route reads: whether a `file`
part is present (and its filename), the `format` query argument, and the
`Accept` header. The effectful collaborators are modelled by their
observable outcomes: whether the saved file exists afterwards, the
generated unique filename, the Gemini call outcome, and the OpenCV
annotation attempt (`some (h, w)` when `cv2.imread` and the drawing and
write succeed on an image of height `h` and width `w`; `none` when any
step of that `try` block raises). -/

/-- The parts of the Flask request object the route reads. -/
structure AnalyzeRequest where
  /-- `none` when `"file" not in request.files`; otherwise the part's
  filename. The source's `not file or file.filename == ""` collapses to a
  test of the filename, since a werkzeug `FileStorage` is falsy exactly
  when its filename is missing or empty, both modelled by `""`. -/
  file : Option String
  /-- `request.args.get("format")`. -/
  formatArg : Option String
  /-- `request.headers.get("Accept", "")`. -/
  accept : String
deriving DecidableEq, Repr

/-- One element of the `detection` list: `{"bbox_xyxy": [...], "disease": ...}`. -/
structure Detection where
  bbox_xyxy : List Int
  disease : String
deriving DecidableEq, Repr

/-- The response document (`response_json` in the source). The no-plant
branch populates `message` and omits `disease`/`recommendations`; the
success branch populates `disease` and `recommendations` and omits
`message`. -/
structure ResponseDoc where
  status : String
  message : Option String
  disease : Option String
  detection : List Detection
  annotated_image : Option String
  analysis : DiseaseInfo
  recommendations : Option (List String)
deriving DecidableEq, Repr

/-- A value returned by the route: an error JSON body with its HTTP
status code, a 200 JSON rendering of a response document, or a 200 HTML
fragment rendering of a response document (the fragment interpolates the
document's fields and embeds `json.dumps` of the whole document). -/
inductive AnalyzeResult where
  | errorResp : Nat → String → AnalyzeResult
  | jsonResp : ResponseDoc → AnalyzeResult
  | htmlResp : ResponseDoc → AnalyzeResult
deriving DecidableEq, Repr

/-- The content-negotiation test of the no-plant branch:
`request.args.get("format") == "json" or
 request.headers.get("Accept","").lower().find("application/json") != -1`. -/
def wantsJson (req : AnalyzeRequest) : Bool :=
  req.formatArg = some "json" || containsSub (pyLower req.accept) "application/json"

/-- The no-plant test: `"no plant" in disease_name.lower() or
"cannot provide a diagnosis" in disease_name.lower()`. -/
def noPlantCond (disease_name : String) : Bool :=
  containsSub (pyLower disease_name) "no plant" ||
  containsSub (pyLower disease_name) "cannot provide a diagnosis"

/-- Embedding of the `/analyze` route body. Control flow mirrors the
source line by line: the two 400 validations, the 500 save check, the
classifier call (`or "unknown"`), `get_disease_info`, the no-plant branch
(the only one that content-negotiates), the best-effort annotation, and
the success document, which is always rendered as the HTML fragment. -/
def analyze (gemini_ready : Bool) (req : AnalyzeRequest) (saveOk : Bool)
    (uniqueFilename : String) (gem : GeminiOutcome)
    (cvOutcome : Option (Nat × Nat)) : AnalyzeResult :=
  match req.file with
  | none => .errorResp 400 "No file uploaded"
  | some filename =>
    if filename = "" then .errorResp 400 "Empty filename or no file selected"
    else if !saveOk then .errorResp 500 "Failed to save uploaded file"
    else
      let disease_name := pyOr (classify_with_gemini gemini_ready gem) "unknown"
      let disease_info := get_disease_info gemini_ready disease_name
      if noPlantCond disease_name then
        let doc : ResponseDoc :=
          { status := "no_plant_detected"
            message := some disease_name
            disease := none
            detection := []
            annotated_image := none
            analysis := disease_info
            recommendations := none }
        if wantsJson req then .jsonResp doc else .htmlResp doc
      else
        let ann : Option String × List Detection :=
          match cvOutcome with
          | some (h, w) =>
            (some ("/uploads/result_" ++ uniqueFilename),
             [{ bbox_xyxy := [(20 : Int), 20, (w : Int) - 20, (h : Int) - 20]
                disease := disease_name }])
          | none => (none, [])
        let doc : ResponseDoc :=
          { status := "success"
            message := none
            disease := some disease_name
            detection := ann.2
            annotated_image := ann.1
            analysis := disease_info
            recommendations := some (get_recommendations disease_info) }
        .htmlResp doc

/-- The full no-plant sentence the prompt instructs the model to emit. -/
def noPlantSentence : String :=
  "This image contains no plants. Therefore, I cannot provide a diagnosis."

/-- Is the route result a 200 JSON rendering? -/
def AnalyzeResult.isJson : AnalyzeResult → Bool
  | .jsonResp _ => true
  | _ => false

/-- Is the route result a 200 HTML fragment rendering? -/
def AnalyzeResult.isHtml : AnalyzeResult → Bool
  | .htmlResp _ => true
  | _ => false

/-- The response document carried by a 200 result, if any. -/
def AnalyzeResult.doc : AnalyzeResult → Option ResponseDoc
  | .jsonResp d => some d
  | .htmlResp d => some d
  | .errorResp _ _ => none

/-! ## Supporting lemmas -/

/-- The head surviving `dropWhile p` does not satisfy `p`. -/
theorem head?_dropWhile_false (p : Char → Bool) :
    ∀ (l : List Char) (c : Char), (l.dropWhile p).head? = some c → p c = false := by
  intro l
  induction l with
  | nil => intro c h; simp [List.dropWhile] at h
  | cons a t ih =>
    intro c h
    by_cases hpa : p a
    · rw [List.dropWhile_cons_of_pos hpa] at h
      exact ih c h
    · rw [List.dropWhile_cons_of_neg hpa] at h
      simp at h
      subst h
      exact Bool.eq_false_iff.mpr hpa

/-- The head of a Python-stripped character list is not whitespace. -/
theorem head?_pyStripList (l : List Char) (c : Char)
    (h : (pyStripList l).head? = some c) : isPySpace c = false := by
  unfold pyStripList at h
  have hsuf : (l.dropWhile isPySpace).reverse.dropWhile isPySpace <:+
      (l.dropWhile isPySpace).reverse := List.dropWhile_suffix _
  have hpre : ((l.dropWhile isPySpace).reverse.dropWhile isPySpace).reverse <+:
      l.dropWhile isPySpace := by
    apply List.reverse_suffix.mp
    simpa using hsuf
  obtain ⟨r, hr⟩ := hpre
  have hm : (l.dropWhile isPySpace).head? = some c := by
    rw [← hr]
    cases hx : ((l.dropWhile isPySpace).reverse.dropWhile isPySpace).reverse with
    | nil => rw [hx] at h; simp at h
    | cons c2 t2 =>
      rw [hx] at h
      simp at h
      simp [hx, h]
  exact head?_dropWhile_false isPySpace l c hm

/-- Every line-boundary character is also stripped whitespace. -/
theorem lineBreak_isPySpace (c : Char) (h : isLineBreak c = true) :
    isPySpace c = true := by
  simp only [isLineBreak, Bool.or_eq_true, decide_eq_true_eq] at h
  rcases h with ((h | h) | h) | h <;> subst h <;> decide

/-- A `String.mk` is the empty string exactly when its character list is empty. -/
theorem stringMk_eq_empty_iff (l : List Char) : (⟨l⟩ : String) = "" ↔ l = [] := by
  constructor
  · intro h
    have := congrArg String.data h
    simpa using this
  · intro h; subst h; rfl

/-- The first line of a nonempty stripped string is nonempty. -/
theorem pyFirstLine_pyStrip_ne_empty (s : String) (h : pyStrip s ≠ "") :
    pyFirstLine (pyStrip s) ≠ "" := by
  have hne : pyStripList s.data ≠ [] := by
    intro hnil
    apply h
    show (⟨pyStripList s.data⟩ : String) = ""
    rw [hnil]
  intro hcontra
  have h1 : (pyStripList s.data).takeWhile (fun c => !isLineBreak c) = [] :=
    (stringMk_eq_empty_iff _).mp hcontra
  cases hl : pyStripList s.data with
  | nil => exact hne hl
  | cons c t =>
    have hc : isPySpace c = false := head?_pyStripList s.data c (by rw [hl]; rfl)
    have hcb : isLineBreak c = false := by
      by_contra hcontra2
      rw [Bool.not_eq_false] at hcontra2
      rw [lineBreak_isPySpace c hcontra2] at hc
      exact absurd hc (by simp)
    rw [hl] at h1
    simp [List.takeWhile_cons, hcb] at h1

/-- `splitFirstColon` recovers the decomposition at the first colon. -/
theorem splitFirstColon_append (p d : List Char) (hp : ':' ∉ p) :
    splitFirstColon (p ++ ':' :: d) = some (p, d) := by
  induction p with
  | nil => simp [splitFirstColon]
  | cons a t ih =>
    have ha : a ≠ ':' := fun h => hp (h ▸ List.mem_cons_self a t)
    have ht : ':' ∉ t := fun h => hp (List.mem_cons_of_mem a h)
    simp [splitFirstColon, ha, ih ht]

/-- `splitFirstColon` returns `none` exactly on colon-free input, matching
the source's `":" in s` guard. -/
theorem splitFirstColon_eq_none_iff (l : List Char) :
    splitFirstColon l = none ↔ ':' ∉ l := by
  induction l with
  | nil => simp [splitFirstColon]
  | cons a t ih =>
    by_cases ha : a = ':'
    · subst ha
      simp [splitFirstColon]
    · simp [splitFirstColon, ha, ih, Ne.symm ha]

/-- Closed form of `get_disease_info` on input whose first colon splits it
as `p ++ ':' :: d`. -/
theorem get_disease_info_some (g : Bool) (dc : String) (p d : List Char)
    (h : splitFirstColon dc.data = some (p, d)) :
    get_disease_info g dc =
      { plant_type := pyStrip (String.mk p)
        disease_name := pyStrip (String.mk d)
        severity_level :=
          if pyLower (pyStrip (String.mk d)) = "healthy" then "Healthy"
          else if containsSub (pyLower (pyStrip (String.mk d))) "blight" ||
              (containsSub (pyLower (pyStrip (String.mk d))) "rot" ||
               (containsSub (pyLower (pyStrip (String.mk d))) "wilt" ||
                containsSub (pyLower (pyStrip (String.mk d))) "canker")) then "High"
          else if containsSub (pyLower (pyStrip (String.mk d))) "spot" ||
              (containsSub (pyLower (pyStrip (String.mk d))) "rust" ||
               containsSub (pyLower (pyStrip (String.mk d))) "mildew") then "Medium"
          else "Low to Medium"
        confidence := if g then "High" else "Low" } := by
  simp [get_disease_info, h, List.any_cons, List.any_nil]

/-- Closed form of `get_disease_info` on colon-free input. -/
theorem get_disease_info_none (g : Bool) (dc : String) (h : ':' ∉ dc.data) :
    get_disease_info g dc =
      { plant_type := "Unknown", disease_name := dc,
        severity_level := "Unknown", confidence := "Low" } := by
  have hs := (splitFirstColon_eq_none_iff dc.data).mpr h
  simp [get_disease_info, hs]

/-! ## Claim theorems -/

/-- C2: for every classification string containing a colon, severity is
assigned first-match-wins in the fixed priority order — trimmed
case-insensitive disease equal to "healthy" gives Healthy; else any of
blight/rot/wilt/canker gives High; else any of spot/rust/mildew gives
Medium; else "Low to Medium" — and in particular a disease containing
both a Medium keyword and a High keyword ("leaf spot blight") resolves to
High. -/
theorem C2_severity_priority (g : Bool) (dc : String) (p d : List Char)
    (h : splitFirstColon dc.data = some (p, d)) :
    (pyLower (pyStrip (String.mk d)) = "healthy" →
      (get_disease_info g dc).severity_level = "Healthy") ∧
    (pyLower (pyStrip (String.mk d)) ≠ "healthy" →
      (containsSub (pyLower (pyStrip (String.mk d))) "blight" = true ∨
       containsSub (pyLower (pyStrip (String.mk d))) "rot" = true ∨
       containsSub (pyLower (pyStrip (String.mk d))) "wilt" = true ∨
       containsSub (pyLower (pyStrip (String.mk d))) "canker" = true) →
      (get_disease_info g dc).severity_level = "High") ∧
    (pyLower (pyStrip (String.mk d)) ≠ "healthy" →
      containsSub (pyLower (pyStrip (String.mk d))) "blight" = false →
      containsSub (pyLower (pyStrip (String.mk d))) "rot" = false →
      containsSub (pyLower (pyStrip (String.mk d))) "wilt" = false →
      containsSub (pyLower (pyStrip (String.mk d))) "canker" = false →
      (containsSub (pyLower (pyStrip (String.mk d))) "spot" = true ∨
       containsSub (pyLower (pyStrip (String.mk d))) "rust" = true ∨
       containsSub (pyLower (pyStrip (String.mk d))) "mildew" = true) →
      (get_disease_info g dc).severity_level = "Medium") ∧
    (pyLower (pyStrip (String.mk d)) ≠ "healthy" →
      containsSub (pyLower (pyStrip (String.mk d))) "blight" = false →
      containsSub (pyLower (pyStrip (String.mk d))) "rot" = false →
      containsSub (pyLower (pyStrip (String.mk d))) "wilt" = false →
      containsSub (pyLower (pyStrip (String.mk d))) "canker" = false →
      containsSub (pyLower (pyStrip (String.mk d))) "spot" = false →
      containsSub (pyLower (pyStrip (String.mk d))) "rust" = false →
      containsSub (pyLower (pyStrip (String.mk d))) "mildew" = false →
      (get_disease_info g dc).severity_level = "Low to Medium") ∧
    (get_disease_info g "Tomato : leaf spot blight").severity_level = "High" := by
  rw [get_disease_info_some g dc p d h]
  refine ⟨?_, ?_, ?_, ?_, ?_⟩
  · intro h1
    simp [h1]
  · intro h1 h2
    rcases h2 with h2 | h2 | h2 | h2 <;> simp [h1, h2]
  · intro h1 hb hr hw hc h2
    rcases h2 with h2 | h2 | h2 <;> simp [h1, hb, hr, hw, hc, h2]
  · intro h1 hb hr hw hc hs hru hm
    simp [h1, hb, hr, hw, hc, hs, hru, hm]
  · cases g <;> decide

/-- C2 witness: the priority conclusions applied at the concrete inputs
"A : Healthy" and "A : leaf spot blight". -/
theorem C2_severity_priority_witness :
    (get_disease_info true "A : Healthy").severity_level = "Healthy" ∧
    (get_disease_info true "A : leaf spot blight").severity_level = "High" := by
  constructor
  · exact (C2_severity_priority true "A : Healthy" ("A ").data
      (" Healthy").data (by decide)).1 (by decide)
  · exact (C2_severity_priority true "A : leaf spot blight" ("A ").data
      (" leaf spot blight").data (by decide)).2.1 (by decide)
      (Or.inl (by decide))

/-- C3: the classifier client always returns a non-empty string and (as a
total function of the call outcome) never throws: unconfigured it returns
the literal "unknown" with no network call modelled at all, any exception
inside the `try` block becomes "unknown", and otherwise it returns the
first line of the whitespace-trimmed model response. -/
theorem C3_classifier_contract (g : Bool) (out : GeminiOutcome) :
    classify_with_gemini g out ≠ "" ∧
    (g = false → classify_with_gemini g out = "unknown") ∧
    (out = GeminiOutcome.exc → classify_with_gemini g out = "unknown") ∧
    (∀ text : String, g = true → out = GeminiOutcome.ok text →
      pyStrip text ≠ "" →
      classify_with_gemini g out = pyFirstLine (pyStrip text)) := by
  refine ⟨?_, ?_, ?_, ?_⟩
  · cases g with
    | false => simp [classify_with_gemini]
    | true =>
      cases out with
      | exc => simp [classify_with_gemini]
      | ok text =>
        by_cases hs : pyStrip text = ""
        · simp [classify_with_gemini, hs]
        · simpa [classify_with_gemini, hs] using
            pyFirstLine_pyStrip_ne_empty text hs
  · intro hg
    subst hg
    simp [classify_with_gemini]
  · intro ho
    subst ho
    cases g <;> simp [classify_with_gemini]
  · intro text hg ho hs
    subst hg
    subst ho
    simp [classify_with_gemini, hs]

/-- C3 witness: the first-line conclusion at a concrete two-line response
with surrounding whitespace. -/
theorem C3_classifier_contract_witness :
    classify_with_gemini true (GeminiOutcome.ok "  Tomato : healthy \nsecond line") =
      pyFirstLine (pyStrip "  Tomato : healthy \nsecond line") :=
  (C3_classifier_contract true
    (GeminiOutcome.ok "  Tomato : healthy \nsecond line")).2.2.2
    "  Tomato : healthy \nsecond line" rfl rfl (by decide)

/-- C4 counterexample: at the colon-free classification "unknown" with the
classifier-configured flag set, confidence is "Low", so "confidence is
High iff the flag is set" fails as a statement about every classification
string. -/
theorem C4_counterexample :
    (get_disease_info true "unknown").confidence = "Low" ∧
    ¬ (((get_disease_info true "unknown").confidence = "High") ↔ true = true) := by
  constructor
  · decide
  · decide

/-- C4 amended: for classification strings containing a colon, the
confidence field is exactly "High" when the classifier-configured flag is
set and exactly "Low" when it is not (so "High" iff the flag is set);
colon-free strings always get confidence "Low", regardless of the
flag. -/
theorem C4_confidence_amended (g : Bool) (dc : String) :
    (':' ∈ dc.data →
      (get_disease_info g dc).confidence = (if g then "High" else "Low") ∧
      (((get_disease_info g dc).confidence = "High") ↔ g = true)) ∧
    (':' ∉ dc.data → (get_disease_info g dc).confidence = "Low") := by
  constructor
  · intro hmem
    cases hsp : splitFirstColon dc.data with
    | none =>
      exact absurd hmem ((splitFirstColon_eq_none_iff dc.data).mp hsp)
    | some pd =>
      obtain ⟨p, d⟩ := pd
      rw [get_disease_info_some g dc p d hsp]
      cases g with
      | false => exact ⟨rfl, by simp⟩
      | true => exact ⟨rfl, by simp⟩
  · intro hmem
    rw [get_disease_info_none g dc hmem]

/-- C4 witness: the amended statement applied at "a:b" with the flag set
(confidence High), at "a:b" with the flag unset (confidence Low), and at
the colon-free "unknown" with the flag set (confidence Low). -/
theorem C4_confidence_amended_witness :
    ((get_disease_info true "a:b").confidence = "High" ∧
     (((get_disease_info true "a:b").confidence = "High") ↔ true = true)) ∧
    ((get_disease_info false "a:b").confidence = "Low" ∧
     (((get_disease_info false "a:b").confidence = "High") ↔ false = true)) ∧
    (get_disease_info true "unknown").confidence = "Low" :=
  ⟨(C4_confidence_amended true "a:b").1 (by decide),
   (C4_confidence_amended false "a:b").1 (by decide),
   (C4_confidence_amended true "unknown").2 (by decide)⟩

/-- C5: a classification string whose first colon splits it as
`p ++ ":" ++ d` is interpreted with `plant_type` the whitespace-trimmed
`p` and `disease_name` the whitespace-trimmed `d`; a colon-free string
yields plant_type "Unknown", disease_name the raw input, severity_level
"Unknown" and confidence "Low". -/
theorem C5_split_and_fallback (g : Bool) (dc : String) :
    (∀ p d : List Char, dc.data = p ++ ':' :: d → ':' ∉ p →
      (get_disease_info g dc).plant_type = pyStrip (String.mk p) ∧
      (get_disease_info g dc).disease_name = pyStrip (String.mk d)) ∧
    (':' ∉ dc.data →
      get_disease_info g dc =
        { plant_type := "Unknown", disease_name := dc,
          severity_level := "Unknown", confidence := "Low" }) := by
  constructor
  · intro p d hdc hp
    have hsp : splitFirstColon dc.data = some (p, d) := by
      rw [hdc]
      exact splitFirstColon_append p d hp
    rw [get_disease_info_some g dc p d hsp]
    exact ⟨rfl, rfl⟩
  · intro hmem
    exact get_disease_info_none g dc hmem

/-- C5 witness: the split conclusion at "Tomato : Late_blight" and the
fallback conclusion at "unknown". -/
theorem C5_split_and_fallback_witness :
    ((get_disease_info true "Tomato : Late_blight").plant_type =
        pyStrip "Tomato " ∧
     (get_disease_info true "Tomato : Late_blight").disease_name =
        pyStrip " Late_blight") ∧
    get_disease_info true "unknown" =
      { plant_type := "Unknown", disease_name := "unknown",
        severity_level := "Unknown", confidence := "Low" } :=
  ⟨(C5_split_and_fallback true "Tomato : Late_blight").1
      ("Tomato ").data (" Late_blight").data (by decide) (by decide),
   (C5_split_and_fallback true "unknown").2 (by decide)⟩

/-- C6: `get_recommendations` is a deterministic, total function of the
`disease_name` field alone (the source reads but never uses the other
fields), matching case-insensitively with first-match-wins priority:
exact "healthy", then substring "blight", then "spot" or "rust", then
"wilt", else the generic fallback list, each branch a fixed static
list. -/
theorem C6_recommendations (info info2 : DiseaseInfo) :
    (info.disease_name = info2.disease_name →
      get_recommendations info = get_recommendations info2) ∧
    (pyLower info.disease_name = "healthy" →
      get_recommendations info = healthyRecs) ∧
    (pyLower info.disease_name ≠ "healthy" →
      containsSub (pyLower info.disease_name) "blight" = true →
      get_recommendations info = blightRecs) ∧
    (pyLower info.disease_name ≠ "healthy" →
      containsSub (pyLower info.disease_name) "blight" = false →
      (containsSub (pyLower info.disease_name) "spot" = true ∨
       containsSub (pyLower info.disease_name) "rust" = true) →
      get_recommendations info = spotRustRecs) ∧
    (pyLower info.disease_name ≠ "healthy" →
      containsSub (pyLower info.disease_name) "blight" = false →
      containsSub (pyLower info.disease_name) "spot" = false →
      containsSub (pyLower info.disease_name) "rust" = false →
      containsSub (pyLower info.disease_name) "wilt" = true →
      get_recommendations info = wiltRecs) ∧
    (pyLower info.disease_name ≠ "healthy" →
      containsSub (pyLower info.disease_name) "blight" = false →
      containsSub (pyLower info.disease_name) "spot" = false →
      containsSub (pyLower info.disease_name) "rust" = false →
      containsSub (pyLower info.disease_name) "wilt" = false →
      get_recommendations info = fallbackRecs) := by
  refine ⟨?_, ?_, ?_, ?_, ?_, ?_⟩
  · intro h
    simp [get_recommendations, h]
  · intro h1
    simp [get_recommendations, h1]
  · intro h1 h2
    simp [get_recommendations, h1, h2]
  · intro h1 h2 h3
    rcases h3 with h3 | h3 <;> simp [get_recommendations, h1, h2, h3]
  · intro h1 h2 h3 h4 h5
    simp [get_recommendations, h1, h2, h3, h4, h5]
  · intro h1 h2 h3 h4 h5
    simp [get_recommendations, h1, h2, h3, h4, h5]

/-- C6 witness: determinism across records agreeing only on
`disease_name`, the healthy branch, and totality on the empty string
(fallback branch). -/
theorem C6_recommendations_witness :
    get_recommendations
        { plant_type := "Tomato", disease_name := "Karnal_bunt",
          severity_level := "Low to Medium", confidence := "High" } =
      get_recommendations
        { plant_type := "Wheat", disease_name := "Karnal_bunt",
          severity_level := "Unknown", confidence := "Low" } ∧
    get_recommendations
        { plant_type := "Rice", disease_name := "Healthy",
          severity_level := "Healthy", confidence := "High" } = healthyRecs ∧
    get_recommendations
        { plant_type := "", disease_name := "",
          severity_level := "", confidence := "" } = fallbackRecs :=
  ⟨(C6_recommendations
      { plant_type := "Tomato", disease_name := "Karnal_bunt",
        severity_level := "Low to Medium", confidence := "High" }
      { plant_type := "Wheat", disease_name := "Karnal_bunt",
        severity_level := "Unknown", confidence := "Low" }).1 rfl,
   (C6_recommendations
      { plant_type := "Rice", disease_name := "Healthy",
        severity_level := "Healthy", confidence := "High" }
      { plant_type := "Rice", disease_name := "Healthy",
        severity_level := "Healthy", confidence := "High" }).2.1 (by decide),
   (C6_recommendations
      { plant_type := "", disease_name := "",
        severity_level := "", confidence := "" }
      { plant_type := "", disease_name := "",
        severity_level := "", confidence := "" }).2.2.2.2.2
      (by decide) (by decide) (by decide) (by decide) (by decide)⟩

/-! ## Characterization of the validated `/analyze` path -/

/-- The `disease_name` local of the route:
`classify_with_gemini(filepath) or "unknown"`. -/
def classifiedName (g : Bool) (gem : GeminiOutcome) : String :=
  pyOr (classify_with_gemini g gem) "unknown"

/-- The response document built by the no-plant branch. -/
def noPlantDoc (g : Bool) (gem : GeminiOutcome) : ResponseDoc :=
  { status := "no_plant_detected"
    message := some (classifiedName g gem)
    disease := none
    detection := []
    annotated_image := none
    analysis := get_disease_info g (classifiedName g gem)
    recommendations := none }

/-- The response document built by the success branch, as a function of
the annotation outcome. -/
def successDoc (g : Bool) (gem : GeminiOutcome) (uniq : String)
    (cv : Option (Nat × Nat)) : ResponseDoc :=
  { status := "success"
    message := none
    disease := some (classifiedName g gem)
    detection :=
      match cv with
      | some (h, w) =>
        [{ bbox_xyxy := [(20 : Int), 20, (w : Int) - 20, (h : Int) - 20]
           disease := classifiedName g gem }]
      | none => []
    annotated_image :=
      match cv with
      | some _ => some ("/uploads/result_" ++ uniq)
      | none => none
    analysis := get_disease_info g (classifiedName g gem)
    recommendations :=
      some (get_recommendations (get_disease_info g (classifiedName g gem))) }

/-- On a validated upload (present, nonempty filename, save verified) the
route returns the no-plant document content-negotiated when the no-plant
test fires, and otherwise always the HTML rendering of the success
document. -/
theorem analyze_valid (g : Bool) (req : AnalyzeRequest) (fn uniq : String)
    (gem : GeminiOutcome) (cv : Option (Nat × Nat))
    (hfile : req.file = some fn) (hfn : fn ≠ "") :
    analyze g req true uniq gem cv =
      if noPlantCond (classifiedName g gem) then
        (if wantsJson req then AnalyzeResult.jsonResp (noPlantDoc g gem)
         else AnalyzeResult.htmlResp (noPlantDoc g gem))
      else AnalyzeResult.htmlResp (successDoc g gem uniq cv) := by
  obtain ⟨rfile, rfmt, racc⟩ := req
  simp only at hfile
  subst hfile
  by_cases hnp : noPlantCond (classifiedName g gem) = true
  · have hnp' : noPlantCond (pyOr (classify_with_gemini g gem) "unknown") = true := by
      simpa [classifiedName] using hnp
    by_cases hw : wantsJson { file := some fn, formatArg := rfmt, accept := racc } = true
    · simp [analyze, hfn, classifiedName, noPlantDoc, hnp', hw]
    · simp [analyze, hfn, classifiedName, noPlantDoc, hnp', hw]
  · have hnp' : noPlantCond (pyOr (classify_with_gemini g gem) "unknown") = false := by
      simpa [classifiedName] using hnp
    cases cv with
    | none =>
      simp [analyze, hfn, classifiedName, successDoc, hnp']
    | some hw2 =>
      obtain ⟨hh, ww⟩ := hw2
      simp [analyze, hfn, classifiedName, successDoc, hnp']

/-- C7: a classification result equal to exactly the fixed no-plant
sentence yields a response document with status "no_plant_detected", an
empty detection list, and a null annotated image. -/
theorem C7_no_plant_exact (g : Bool) (req : AnalyzeRequest) (fn uniq : String)
    (gem : GeminiOutcome) (cv : Option (Nat × Nat))
    (hfile : req.file = some fn) (hfn : fn ≠ "")
    (hclass : classify_with_gemini g gem = noPlantSentence) :
    ∃ doc : ResponseDoc,
      (analyze g req true uniq gem cv = AnalyzeResult.jsonResp doc ∨
       analyze g req true uniq gem cv = AnalyzeResult.htmlResp doc) ∧
      doc.status = "no_plant_detected" ∧
      doc.message = some noPlantSentence ∧
      doc.detection = [] ∧
      doc.annotated_image = none := by
  have hcn : classifiedName g gem = noPlantSentence := by
    unfold classifiedName
    rw [hclass]
    decide
  have hnp : noPlantCond (classifiedName g gem) = true := by
    rw [hcn]
    decide
  refine ⟨noPlantDoc g gem, ?_, rfl, ?_, rfl, rfl⟩
  · rw [analyze_valid g req fn uniq gem cv hfile hfn, if_pos hnp]
    by_cases hw : wantsJson req = true
    · exact Or.inl (by rw [if_pos hw])
    · exact Or.inr (by rw [if_neg hw])
  · simp [noPlantDoc, hcn]

/-- C7 witness: the theorem at a concrete valid upload whose classifier
outcome is exactly the no-plant sentence. -/
theorem C7_no_plant_exact_witness :
    ∃ doc : ResponseDoc,
      (analyze true { file := some "leaf.jpg", formatArg := none, accept := "" }
          true "u.jpg" (GeminiOutcome.ok noPlantSentence) none =
        AnalyzeResult.jsonResp doc ∨
       analyze true { file := some "leaf.jpg", formatArg := none, accept := "" }
          true "u.jpg" (GeminiOutcome.ok noPlantSentence) none =
        AnalyzeResult.htmlResp doc) ∧
      doc.status = "no_plant_detected" ∧
      doc.message = some noPlantSentence ∧
      doc.detection = [] ∧
      doc.annotated_image = none :=
  C7_no_plant_exact true _ "leaf.jpg" "u.jpg" _ none rfl (by decide) (by decide)

/-- C8: the analyze route rejects invalid uploads with status 400 — a
missing "file" part gives the "No file uploaded" error body, and an
empty-named file gives the "Empty filename or no file selected" error
body. -/
theorem C8_upload_validation (g : Bool) (req : AnalyzeRequest) (saveOk : Bool)
    (uniq : String) (gem : GeminiOutcome) (cv : Option (Nat × Nat)) :
    (req.file = none →
      analyze g req saveOk uniq gem cv =
        AnalyzeResult.errorResp 400 "No file uploaded") ∧
    (req.file = some "" →
      analyze g req saveOk uniq gem cv =
        AnalyzeResult.errorResp 400 "Empty filename or no file selected") := by
  obtain ⟨rfile, rfmt, racc⟩ := req
  constructor
  · intro h
    simp only at h
    subst h
    simp [analyze]
  · intro h
    simp only at h
    subst h
    simp [analyze]

/-- C8 witness: both validation errors at concrete requests. -/
theorem C8_upload_validation_witness :
    analyze true { file := none, formatArg := none, accept := "" } true "u.jpg"
        GeminiOutcome.exc none = AnalyzeResult.errorResp 400 "No file uploaded" ∧
    analyze true { file := some "", formatArg := none, accept := "" } true "u.jpg"
        GeminiOutcome.exc none =
      AnalyzeResult.errorResp 400 "Empty filename or no file selected" :=
  ⟨(C8_upload_validation true
      { file := none, formatArg := none, accept := "" } true "u.jpg"
      GeminiOutcome.exc none).1 rfl,
   (C8_upload_validation true
      { file := some "", formatArg := none, accept := "" } true "u.jpg"
      GeminiOutcome.exc none).2 rfl⟩

/-- C9: when annotation fails (`cvOutcome = none`) the route still
returns the success response document, with a null annotated image and an
empty detection list, and with the same analysis and recommendations as
under any other annotation outcome. -/
theorem C9_annotation_failure_resilient (g : Bool) (req : AnalyzeRequest)
    (fn uniq : String) (gem : GeminiOutcome)
    (hfile : req.file = some fn) (hfn : fn ≠ "")
    (hplant : noPlantCond (classifiedName g gem) = false) :
    ∃ doc : ResponseDoc,
      analyze g req true uniq gem none = AnalyzeResult.htmlResp doc ∧
      doc.status = "success" ∧
      doc.annotated_image = none ∧
      doc.detection = [] ∧
      doc.analysis = get_disease_info g (classifiedName g gem) ∧
      doc.recommendations =
        some (get_recommendations (get_disease_info g (classifiedName g gem))) ∧
      ∀ cv : Option (Nat × Nat), ∃ doc2 : ResponseDoc,
        analyze g req true uniq gem cv = AnalyzeResult.htmlResp doc2 ∧
        doc2.analysis = doc.analysis ∧
        doc2.recommendations = doc.recommendations := by
  have hplant' : ¬ (noPlantCond (classifiedName g gem) = true) := by
    simp [hplant]
  refine ⟨successDoc g gem uniq none, ?_, rfl, rfl, rfl, rfl, rfl, ?_⟩
  · rw [analyze_valid g req fn uniq gem none hfile hfn, if_neg hplant']
  · intro cv
    exact ⟨successDoc g gem uniq cv,
      by rw [analyze_valid g req fn uniq gem cv hfile hfn, if_neg hplant'], rfl, rfl⟩

/-- C9 witness: the theorem at a concrete valid upload classified
"Rose : rust" whose annotation step fails. -/
theorem C9_annotation_failure_resilient_witness :
    ∃ doc : ResponseDoc,
      analyze true { file := some "a.jpg", formatArg := none, accept := "" }
          true "u.jpg" (GeminiOutcome.ok "Rose : rust") none =
        AnalyzeResult.htmlResp doc ∧
      doc.status = "success" ∧
      doc.annotated_image = none ∧
      doc.detection = [] ∧
      doc.analysis =
        get_disease_info true (classifiedName true (GeminiOutcome.ok "Rose : rust")) ∧
      doc.recommendations =
        some (get_recommendations
          (get_disease_info true (classifiedName true (GeminiOutcome.ok "Rose : rust")))) ∧
      ∀ cv : Option (Nat × Nat), ∃ doc2 : ResponseDoc,
        analyze true { file := some "a.jpg", formatArg := none, accept := "" }
            true "u.jpg" (GeminiOutcome.ok "Rose : rust") cv =
          AnalyzeResult.htmlResp doc2 ∧
        doc2.analysis = doc.analysis ∧
        doc2.recommendations = doc.recommendations :=
  C9_annotation_failure_resilient true
    { file := some "a.jpg", formatArg := none, accept := "" }
    "a.jpg" "u.jpg" (GeminiOutcome.ok "Rose : rust") rfl (by decide) (by decide)

/-- C10: the no-plant branch fires on a case-insensitive substring test,
not an exact-sentence comparison — any classification whose lowercased
text contains "no plant" or "cannot provide a diagnosis" yields the
no-plant response document, even when the text also carries a
colon-separated label. -/
theorem C10_no_plant_substring (g : Bool) (req : AnalyzeRequest)
    (fn uniq : String) (gem : GeminiOutcome) (cv : Option (Nat × Nat))
    (hfile : req.file = some fn) (hfn : fn ≠ "")
    (hsub : containsSub (pyLower (classifiedName g gem)) "no plant" = true ∨
      containsSub (pyLower (classifiedName g gem)) "cannot provide a diagnosis" = true) :
    ∃ doc : ResponseDoc,
      (analyze g req true uniq gem cv = AnalyzeResult.jsonResp doc ∨
       analyze g req true uniq gem cv = AnalyzeResult.htmlResp doc) ∧
      doc.status = "no_plant_detected" ∧
      doc.message = some (classifiedName g gem) ∧
      doc.detection = [] ∧
      doc.annotated_image = none := by
  have hnp : noPlantCond (classifiedName g gem) = true := by
    unfold noPlantCond
    rcases hsub with h | h <;> simp [h]
  refine ⟨noPlantDoc g gem, ?_, rfl, rfl, rfl, rfl⟩
  rw [analyze_valid g req fn uniq gem cv hfile hfn, if_pos hnp]
  by_cases hw : wantsJson req = true
  · exact Or.inl (by rw [if_pos hw])
  · exact Or.inr (by rw [if_neg hw])

/-- C10 witness: a classification carrying both a colon-separated label
and the "no plant" substring still lands in the no-plant branch. -/
theorem C10_no_plant_substring_witness :
    ∃ doc : ResponseDoc,
      (analyze true { file := some "a.jpg", formatArg := none, accept := "" }
          true "u.jpg" (GeminiOutcome.ok "Tomato : no plants visible") none =
        AnalyzeResult.jsonResp doc ∨
       analyze true { file := some "a.jpg", formatArg := none, accept := "" }
          true "u.jpg" (GeminiOutcome.ok "Tomato : no plants visible") none =
        AnalyzeResult.htmlResp doc) ∧
      doc.status = "no_plant_detected" ∧
      doc.message =
        some (classifiedName true (GeminiOutcome.ok "Tomato : no plants visible")) ∧
      doc.detection = [] ∧
      doc.annotated_image = none :=
  C10_no_plant_substring true
    { file := some "a.jpg", formatArg := none, accept := "" }
    "a.jpg" "u.jpg" (GeminiOutcome.ok "Tomato : no plants visible") none
    rfl (by decide) (Or.inl (by decide))

/-- C1 counterexample: a valid upload classified "Tomato : healthy" (a
successful plant detection) with `format=json` requested is still
answered with the HTML fragment, not a JSON body, refuting the claimed
content negotiation on the success path. -/
theorem C1_counterexample :
    wantsJson { file := some "leaf.jpg", formatArg := some "json", accept := "" } = true ∧
    noPlantCond (classifiedName true (GeminiOutcome.ok "Tomato : healthy")) = false ∧
    (analyze true { file := some "leaf.jpg", formatArg := some "json", accept := "" }
        true "u.jpg" (GeminiOutcome.ok "Tomato : healthy") none).isJson = false ∧
    (analyze true { file := some "leaf.jpg", formatArg := some "json", accept := "" }
        true "u.jpg" (GeminiOutcome.ok "Tomato : healthy") none).isHtml = true := by
  exact ⟨by decide, by decide, by decide, by decide⟩

/-- C1 amended: only the no-plant branch content-negotiates — there the
same response document is rendered as JSON when `format=json` or an
Accept header containing `application/json` asks for it and as HTML
otherwise — while a successful (plant-detected) classification is always
rendered as the HTML fragment regardless of the declared preference. -/
theorem C1_negotiation_amended (g : Bool) (fn uniq : String)
    (gem : GeminiOutcome) (cv : Option (Nat × Nat)) (hfn : fn ≠ "") :
    (noPlantCond (classifiedName g gem) = true →
      ∃ doc : ResponseDoc, ∀ req : AnalyzeRequest, req.file = some fn →
        analyze g req true uniq gem cv =
          (if wantsJson req then AnalyzeResult.jsonResp doc
           else AnalyzeResult.htmlResp doc)) ∧
    (noPlantCond (classifiedName g gem) = false →
      ∃ doc : ResponseDoc, ∀ req : AnalyzeRequest, req.file = some fn →
        analyze g req true uniq gem cv = AnalyzeResult.htmlResp doc) := by
  constructor
  · intro hnp
    refine ⟨noPlantDoc g gem, fun req hfile => ?_⟩
    rw [analyze_valid g req fn uniq gem cv hfile hfn, if_pos hnp]
  · intro hnp
    have hnp' : ¬ (noPlantCond (classifiedName g gem) = true) := by simp [hnp]
    refine ⟨successDoc g gem uniq cv, fun req hfile => ?_⟩
    rw [analyze_valid g req fn uniq gem cv hfile hfn, if_neg hnp']

/-- C1 witness: at the no-plant sentence the same document is rendered
JSON with `format=json` and HTML without; at "Tomato : healthy" even the
`format=json` request is answered with HTML. -/
theorem C1_negotiation_amended_witness :
    (analyze true { file := some "leaf.jpg", formatArg := some "json", accept := "" }
        true "u.jpg" (GeminiOutcome.ok noPlantSentence) none).isJson = true ∧
    (analyze true { file := some "leaf.jpg", formatArg := none, accept := "" }
        true "u.jpg" (GeminiOutcome.ok noPlantSentence) none).isHtml = true ∧
    (analyze true { file := some "leaf.jpg", formatArg := some "json", accept := "" }
        true "u.jpg" (GeminiOutcome.ok noPlantSentence) none).doc =
      (analyze true { file := some "leaf.jpg", formatArg := none, accept := "" }
        true "u.jpg" (GeminiOutcome.ok noPlantSentence) none).doc ∧
    (analyze true { file := some "leaf.jpg", formatArg := some "json", accept := "" }
        true "u.jpg" (GeminiOutcome.ok "Tomato : healthy") none).isHtml = true := by
  obtain ⟨doc, hdoc⟩ :=
    (C1_negotiation_amended true "leaf.jpg" "u.jpg"
      (GeminiOutcome.ok noPlantSentence) none (by decide)).1 (by decide)
  obtain ⟨doc2, hdoc2⟩ :=
    (C1_negotiation_amended true "leaf.jpg" "u.jpg"
      (GeminiOutcome.ok "Tomato : healthy") none (by decide)).2 (by decide)
  have h1 := hdoc { file := some "leaf.jpg", formatArg := some "json", accept := "" } rfl
  have h2 := hdoc { file := some "leaf.jpg", formatArg := none, accept := "" } rfl
  have h3 := hdoc2 { file := some "leaf.jpg", formatArg := some "json", accept := "" } rfl
  rw [if_pos (by decide)] at h1
  rw [if_neg (by decide)] at h2
  refine ⟨?_, ?_, ?_, ?_⟩
  · rw [h1]
    rfl
  · rw [h2]
    rfl
  · rw [h1, h2]
    rfl
  · rw [h3]
    rfl

end PlantApp
